import Mathlib

/-!
Shallow embedding of `windlass/remotes.py` (the artifact-publishing core of
the windlass repository): the retry executor `remote_retry`, the connector
variants (`DockerConnector`, `ECRConnector`, `S3Connector`,
`HTTPBasicAuthConnector`, `HTTPBasicAuthConnector2Phase`) and the
`AWSRemote.upload_generic` facade, together with theorems settling the
frozen specification claims about them.

External effects (HTTP requests, docker daemon calls, the ECR client, S3)
are modelled by explicit oracles (functions supplying each call's outcome)
and by explicit traces of the calls a function issues, so that properties
such as "no PUT is issued" or "the local tag alias is removed on every exit
path" are statements about the returned trace.
-/

namespace Windlass

/-- Exception values observable in `remotes.py`.

The constructors model, in order: `windlass.api.RetryableFailure` (class
source not under `src/`; modelled from the spec's failure taxonomy as the
retryable "transient remote failure" kind, carrying a message); the plain
`Exception` raised by `remote_retry` after exhausting its attempts; the
plain `Exception` raised by `HTTPBasicAuthConnector2Phase.upload` when the
final location already exists (the spec's `AlreadyPublishedError`); Python
`ValueError` (e.g. from tuple-unpacking `local_name.split(':')`);
`ecrc.exceptions.RepositoryNotFoundException`;
`ecrc.exceptions.RepositoryAlreadyExistsException`; Python `IndexError`;
and any other exception. -/
inductive Err where
  | retryable (msg : String)
  | maxRetries (msg : String)
  | alreadyPublished (msg : String)
  | valueError (msg : String)
  | repoNotFound (msg : String)
  | repoAlreadyExists (msg : String)
  | indexError (msg : String)
  | other (msg : String)
  deriving DecidableEq, Repr

instance exceptDecEq {ε α : Type} [DecidableEq ε] [DecidableEq α] :
    DecidableEq (Except ε α) := fun a b =>
  match a, b with
  | Except.error x, Except.error y =>
      if h : x = y then Decidable.isTrue (by rw [h]) else Decidable.isFalse (by simp [h])
  | Except.ok x, Except.ok y =>
      if h : x = y then Decidable.isTrue (by rw [h]) else Decidable.isFalse (by simp [h])
  | Except.error _, Except.ok _ => Decidable.isFalse (by simp)
  | Except.ok _, Except.error _ => Decidable.isFalse (by simp)

/-- Modelled from the spec: `isinstance(e, windlass.api.RetryableFailure)`.
`windlass.api` is not under `src/`; the spec's failure taxonomy says the
retryable kind is exactly the "TransientRemoteFailure", and none of the
other exception kinds above subclass it. -/
def isRetryableFailure : Err → Bool
  | Err.retryable _ => true
  | _ => false

/-- `remote_retry.__init__`: the retryable set always contains
`windlass.api.RetryableFailure` and is extended with the call site's
`retry_on` classes. -/
def mk_retry_on (extra : Err → Bool) : Err → Bool :=
  fun e => isRetryableFailure e || extra e

/-- The default retryable set (`remote_retry()` with no `retry_on`). -/
def default_retry_on : Err → Bool :=
  mk_retry_on (fun _ => false)

/-- The message of the exception raised by `remote_retry` after exhausting
its attempts: `'%s: Maximum number of retries occurred (%d)' % (func,
self.max_retries)`. -/
def max_retries_msg (funcName : String) (max_retries : Nat) : String :=
  funcName ++ ": Maximum number of retries occurred (" ++ toString max_retries ++ ")"

/-- The loop body of `remote_retry.__call__`'s inner `retry_f`.

`func i` gives attempt `i`'s outcome together with the trace of external
calls that attempt issued. Arguments: remaining attempts, next attempt
index, sleeps performed so far (one `time.sleep(retry_backoff)` per
retryable failure), and the accumulated trace. Returns the overall result,
the total number of sleeps, and the total trace. -/
def retry_go (funcName : String) (max_retries : Nat) (retry_on : Err → Bool)
    (func : Nat → Except Err α × List τ) :
    Nat → Nat → Nat → List τ → Except Err α × Nat × List τ
  | 0, _, sleeps, acc =>
      (Except.error (Err.maxRetries (max_retries_msg funcName max_retries)), sleeps, acc)
  | rem + 1, i, sleeps, acc =>
      match func i with
      | (Except.ok v, t) => (Except.ok v, sleeps, acc ++ t)
      | (Except.error e, t) =>
          if retry_on e then
            retry_go funcName max_retries retry_on func rem (i + 1) (sleeps + 1) (acc ++ t)
          else
            (Except.error e, sleeps, acc ++ t)

/-- `remote_retry(max_retries, retry_on)(func)(...)`: run `func` up to
`max_retries` times, re-raising a non-retryable failure unchanged, sleeping
once after each retryable failure, and raising the max-retries `Exception`
when the loop exhausts its range. -/
def remote_retry_call (max_retries : Nat) (funcName : String) (retry_on : Err → Bool)
    (func : Nat → Except Err α × List τ) : Except Err α × Nat × List τ :=
  retry_go funcName max_retries retry_on func max_retries 0 0 []

/-- Python default `max_retries=3` of `remote_retry.__init__`. -/
def default_max_retries : Nat := 3

theorem retry_go_all_fail (funcName : String) (max_retries : Nat) (retry_on : Err → Bool)
    (func : Nat → Except Err α × List τ) :
    ∀ rem i sleeps acc,
      (∀ j, j < rem → ∃ e t, func (i + j) = (Except.error e, t) ∧ retry_on e = true) →
      (retry_go funcName max_retries retry_on func rem i sleeps acc).1 =
          Except.error (Err.maxRetries (max_retries_msg funcName max_retries)) ∧
        (retry_go funcName max_retries retry_on func rem i sleeps acc).2.1 = sleeps + rem := by
  intro rem
  induction rem with
  | zero => intro i sleeps acc _; simp [retry_go]
  | succ n ih =>
      intro i sleeps acc hfail
      obtain ⟨e, t, hft, hre⟩ := hfail 0 (Nat.succ_pos n)
      simp only [Nat.add_zero] at hft
      have := ih (i + 1) (sleeps + 1) (acc ++ t) (fun j hj => by
        have h := hfail (j + 1) (Nat.succ_lt_succ hj)
        simpa [Nat.add_assoc, Nat.add_comm 1 j] using h)
      simp only [retry_go, hft, hre, if_true]
      exact ⟨this.1, by omega⟩

theorem retry_go_succeeds_at (funcName : String) (max_retries : Nat) (retry_on : Err → Bool)
    (func : Nat → Except Err α × List τ) (v : α) :
    ∀ k rem i sleeps acc, k < rem →
      (∀ j, j < k → ∃ e t, func (i + j) = (Except.error e, t) ∧ retry_on e = true) →
      (func (i + k)).1 = Except.ok v →
      (retry_go funcName max_retries retry_on func rem i sleeps acc).1 = Except.ok v ∧
        (retry_go funcName max_retries retry_on func rem i sleeps acc).2.1 = sleeps + k := by
  intro k
  induction k with
  | zero =>
      intro rem i sleeps acc hk _ hok
      obtain ⟨rem', rfl⟩ := Nat.exists_eq_succ_of_ne_zero (Nat.pos_iff_ne_zero.mp hk)
      rcases hf : func i with ⟨r, t⟩
      rw [Nat.add_zero, hf] at hok
      dsimp only at hok
      subst hok
      simp [retry_go, hf]
  | succ n ih =>
      intro rem i sleeps acc hk hfail hok
      obtain ⟨rem', rfl⟩ := Nat.exists_eq_succ_of_ne_zero (Nat.pos_iff_ne_zero.mp
        (Nat.lt_of_le_of_lt (Nat.zero_le _) hk))
      obtain ⟨e, t, hft, hre⟩ := hfail 0 (Nat.succ_pos n)
      simp only [Nat.add_zero] at hft
      have := ih rem' (i + 1) (sleeps + 1) (acc ++ t) (Nat.lt_of_succ_lt_succ hk)
        (fun j hj => by
          have h := hfail (j + 1) (Nat.succ_lt_succ hj)
          simpa [Nat.add_assoc, Nat.add_comm 1 j] using h)
        (by simpa [Nat.add_assoc, Nat.add_comm 1 n] using hok)
      simp only [retry_go, hft, hre, if_true]
      exact ⟨this.1, by omega⟩

theorem retry_go_trace_mono (funcName : String) (max_retries : Nat) (retry_on : Err → Bool)
    (func : Nat → Except Err α × List τ) (x : τ) :
    ∀ rem i sleeps acc, x ∈ acc →
      x ∈ (retry_go funcName max_retries retry_on func rem i sleeps acc).2.2 := by
  intro rem
  induction rem with
  | zero => intro i sleeps acc hx; simpa [retry_go] using hx
  | succ n ih =>
      intro i sleeps acc hx
      rcases hf : func i with ⟨r, t⟩
      rcases r with e | v
      · by_cases hre : retry_on e = true
        · simp only [retry_go, hf, hre, if_true]
          exact ih (i + 1) (sleeps + 1) (acc ++ t) (List.mem_append.mpr (Or.inl hx))
        · simp [retry_go, hf, hre, List.mem_append, hx]
      · simp [retry_go, hf, List.mem_append, hx]

theorem retry_stops_on_fatal (max_retries : Nat) (funcName : String)
    (retry_on : Err → Bool) (func : Nat → Except Err α × List τ) (e : Err) (t : List τ)
    (hpos : 0 < max_retries)
    (hf : func 0 = (Except.error e, t)) (hnr : retry_on e = false) :
    remote_retry_call max_retries funcName retry_on func = (Except.error e, 0, t) := by
  obtain ⟨m, rfl⟩ := Nat.exists_eq_succ_of_ne_zero (Nat.pos_iff_ne_zero.mp hpos)
  simp [remote_retry_call, retry_go, hf, hnr]

theorem retry_first_ok (max_retries : Nat) (funcName : String) (retry_on : Err → Bool)
    (func : Nat → Except Err α × List τ) (v : α) (t : List τ)
    (hpos : 0 < max_retries) (hf : func 0 = (Except.ok v, t)) :
    remote_retry_call max_retries funcName retry_on func = (Except.ok v, 0, t) := by
  obtain ⟨m, rfl⟩ := Nat.exists_eq_succ_of_ne_zero (Nat.pos_iff_ne_zero.mp hpos)
  simp [remote_retry_call, retry_go, hf]

theorem retry_call_trace_head (max_retries : Nat) (funcName : String) (retry_on : Err → Bool)
    (func : Nat → Except Err α × List τ) (hpos : 0 < max_retries) (x : τ)
    (hx : x ∈ (func 0).2) :
    x ∈ (remote_retry_call max_retries funcName retry_on func).2.2 := by
  obtain ⟨m, rfl⟩ := Nat.exists_eq_succ_of_ne_zero (Nat.pos_iff_ne_zero.mp hpos)
  rcases hf : func 0 with ⟨r, t⟩
  rw [hf] at hx
  dsimp only at hx
  rcases r with e | v
  · by_cases hre : retry_on e = true
    · simp only [remote_retry_call, retry_go, hf, hre, if_true]
      exact retry_go_trace_mono funcName (m + 1) retry_on func x m 1 1 ([] ++ t)
        (by simpa using hx)
    · simp [remote_retry_call, retry_go, hf, hre, hx]
  · simp [remote_retry_call, retry_go, hf, hx]

/-- Claim C7: an operation raising a failure outside the retryable set on
its first invocation propagates that failure unchanged immediately: the
wrapped call returns the very same exception, performs zero sleeps, and
issues only that first attempt's calls (no retry budget consumed). -/
theorem remote_retry_nonretryable_propagates (max_retries : Nat) (funcName : String)
    (retry_on : Err → Bool) (func : Nat → Except Err α × List τ) (e : Err) (t : List τ)
    (hpos : 0 < max_retries)
    (hf : func 0 = (Except.error e, t)) (hnr : retry_on e = false) :
    remote_retry_call max_retries funcName retry_on func = (Except.error e, 0, t) :=
  retry_stops_on_fatal max_retries funcName retry_on func e t hpos hf hnr

theorem remote_retry_nonretryable_propagates_witness :
    (0 : Nat) < 3 ∧
      remote_retry_call 3 "op" default_retry_on
          (fun _ => ((Except.error (Err.valueError "boom") : Except Err Nat), ([] : List Unit))) =
        (Except.error (Err.valueError "boom"), 0, []) :=
  ⟨by decide,
    remote_retry_nonretryable_propagates 3 "op" default_retry_on
      (fun _ => ((Except.error (Err.valueError "boom") : Except Err Nat), ([] : List Unit)))
      (Err.valueError "boom") [] (by decide) rfl (by decide)⟩

/-- Claim C3: wrapping an operation that raises a retryable failure on
exactly `k < N` consecutive attempts and then succeeds, a
`remote_retry(max_retries=N)` call returns the operation's success value
and sleeps (backs off) exactly `k` times. -/
theorem remote_retry_success_after_k (N k : Nat) (funcName : String) (retry_on : Err → Bool)
    (func : Nat → Except Err α × List τ) (v : α) (e : Nat → Err)
    (hk : k < N)
    (hfail : ∀ j, j < k → (func j).1 = Except.error (e j))
    (hret : ∀ j, j < k → retry_on (e j) = true)
    (hok : (func k).1 = Except.ok v) :
    (remote_retry_call N funcName retry_on func).1 = Except.ok v ∧
      (remote_retry_call N funcName retry_on func).2.1 = k := by
  have h := retry_go_succeeds_at funcName N retry_on func v k N 0 0 [] hk
    (fun j hj => ⟨e j, (func j).2, by
        rw [Nat.zero_add]
        exact Prod.ext_iff.mpr ⟨hfail j hj, rfl⟩,
      hret j hj⟩)
    (by rw [Nat.zero_add]; exact hok)
  exact ⟨h.1, by simpa using h.2⟩

theorem remote_retry_success_after_k_witness :
    (2 : Nat) < 3 ∧
      (remote_retry_call 3 "op" default_retry_on
          (fun i => (if i < 2 then Except.error (Err.retryable "x") else Except.ok (7 : Nat),
            ([] : List Unit)))).1 = Except.ok 7 ∧
      (remote_retry_call 3 "op" default_retry_on
          (fun i => (if i < 2 then Except.error (Err.retryable "x") else Except.ok (7 : Nat),
            ([] : List Unit)))).2.1 = 2 :=
  ⟨by decide,
    remote_retry_success_after_k 3 2 "op" default_retry_on
      (fun i => (if i < 2 then Except.error (Err.retryable "x") else Except.ok (7 : Nat),
        ([] : List Unit)))
      7 (fun _ => Err.retryable "x") (by decide)
      (by decide) (by decide) (by decide)⟩

/-- Python `str.startswith(pre)`: character-level prefix test. -/
def str_startswith (s pre : String) : Bool := pre.data.isPrefixOf s.data

/-- Python `str.endswith(suf)`: character-level suffix test. -/
def str_endswith (s suf : String) : Bool := suf.data.isSuffixOf s.data

/-- Two-argument posix `os.path.join(a, b)`, as used by the HTTP
connectors: an absolute second component replaces the first; otherwise the
components are joined, inserting '/' unless the first is empty or already
ends with '/'. -/
def os_path_join (a b : String) : String :=
  if str_startswith b "/" then b
  else if a = "" then b
  else if str_endswith a "/" then a ++ b
  else a ++ "/" ++ b

/-- Python `';'.join(parts)`. -/
def join_semicolon (parts : List String) : String :=
  match parts with
  | [] => ""
  | p :: ps => ps.foldl (fun acc q => acc ++ ";" ++ q) p

/-- `';'.join(['%s=%s' % (k, v) for k, v in properties.items()])`, with the
dict's insertion order modelled by the list order. -/
def matrix_params (properties : List (String × String)) : String :=
  join_semicolon (properties.map fun kv => kv.1 ++ "=" ++ kv.2)

/-- HTTP requests a connector issues, recorded in its trace. -/
inductive HttpReq where
  | put (url : String)
  | head (url : String)
  deriving DecidableEq, Repr

def HttpReq.isPut : HttpReq → Bool
  | HttpReq.put _ => true
  | HttpReq.head _ => false

structure HTTPBasicAuthConnector where
  base_url : String
  username : String
  password : String
  deriving DecidableEq, Repr

/-- The target URL built by `HTTPBasicAuthConnector.upload`:
`os.path.join(base_url, upload_name)`, then `';'`-joined matrix parameters
appended after a `';'` when the joined parameter string is non-empty. -/
def http_upload_url (c : HTTPBasicAuthConnector) (upload_name : String)
    (properties : List (String × String)) : String :=
  let base := os_path_join c.base_url upload_name
  let props := matrix_params properties
  if props = "" then base else base ++ ";" ++ props

/-- `HTTPBasicAuthConnector.upload`: issue an authenticated PUT of the
stream to the target URL; status 201 returns the URL, any other status
raises `windlass.api.RetryableFailure` with the status and URL in its
message. `put_status` is the oracle giving the PUT response's status code. -/
def http_upload (c : HTTPBasicAuthConnector) (upload_name : String)
    (properties : List (String × String)) (put_status : String → Nat) :
    Except Err String × List HttpReq :=
  let upload_url := http_upload_url c upload_name properties
  if put_status upload_url ≠ 201 then
    (Except.error (Err.retryable ("Failed (status: " ++ toString (put_status upload_url) ++
        ") to upload " ++ upload_url)),
      [HttpReq.put upload_url])
  else
    (Except.ok upload_url, [HttpReq.put upload_url])

structure HTTPBasicAuthConnector2Phase where
  base_url : String
  username : String
  password : String
  temp_path : String
  deriving DecidableEq, Repr

/-- The base-class view of a two-phase connector (`super()`). -/
def http2_base (c : HTTPBasicAuthConnector2Phase) : HTTPBasicAuthConnector :=
  ⟨c.base_url, c.username, c.password⟩

/-- `HTTPBasicAuthConnector2Phase.upload`: with a non-empty `temp_path`,
first HEAD the final location `os.path.join(base_url, upload_name)` and
raise the already-published `Exception` if that probe succeeds; otherwise
(and when `temp_path` is empty) delegate to the base PUT logic against
`os.path.join(temp_path, upload_name)`. `head_ok` is the oracle for
`requests.head(...).ok`. -/
def http2_upload (c : HTTPBasicAuthConnector2Phase) (upload_name : String)
    (properties : List (String × String)) (head_ok : String → Bool)
    (put_status : String → Nat) : Except Err String × List HttpReq :=
  if c.temp_path ≠ "" then
    if head_ok (os_path_join c.base_url upload_name) then
      (Except.error (Err.alreadyPublished
          ("Artifact " ++ os_path_join c.base_url upload_name ++ " already exists")),
        [HttpReq.head (os_path_join c.base_url upload_name)])
    else
      let r := http_upload (http2_base c) (os_path_join c.temp_path upload_name)
        properties put_status
      (r.1, HttpReq.head (os_path_join c.base_url upload_name) :: r.2)
  else
    http_upload (http2_base c) (os_path_join c.temp_path upload_name) properties put_status

/-- Calls to S3 recorded in a trace (`upload_fileobj(stream, bucket, key)`). -/
inductive S3Call where
  | uploadFileobj (stream : String) (bucket : String) (key : String)
  deriving DecidableEq, Repr

structure S3Connector where
  bucket : String
  /-- models the `path_prefix` attribute (already defaulted to `''`). -/
  path_pre : String
  deriving DecidableEq, Repr

/-- `S3Connector._obj_url`. -/
def s3_obj_url (c : S3Connector) (upload_name : String) : String :=
  "https://" ++ c.bucket ++ ".s3.amazonaws.com/" ++ c.path_pre ++ upload_name

/-- `S3Connector.upload`: one streaming upload of the object under
`path_prefix + upload_name`, returning the deterministic public URL. -/
def s3_upload (c : S3Connector) (upload_name stream : String) : String × List S3Call :=
  (s3_obj_url c upload_name,
    [S3Call.uploadFileobj stream c.bucket (c.path_pre ++ upload_name)])

set_option linter.unusedVariables false in
/-- `AWSRemote.upload_generic`: delegates to the bound generic
`S3Connector`, discarding `properties` ("Ignore properties for AWS"). -/
def aws_upload_generic (generic_connector : S3Connector) (name stream : String)
    (properties : List (String × String)) : String × List S3Call :=
  s3_upload generic_connector name stream

theorem foldl_semicolon_length (ps : List String) :
    ∀ acc : String, acc.length ≤ (ps.foldl (fun acc q => acc ++ ";" ++ q) acc).length := by
  induction ps with
  | nil => intro acc; simp
  | cons p ps ih =>
      intro acc
      calc acc.length ≤ (acc ++ ";" ++ p).length := by
            simp [String.length_append]; omega
        _ ≤ _ := ih (acc ++ ";" ++ p)

theorem pair_param_ne_empty (k v : String) : k ++ "=" ++ v ≠ "" := by
  intro h
  have hlen : (k ++ "=" ++ v).length = 0 := by rw [h]; rfl
  have h1 : String.length "=" = 1 := rfl
  rw [String.length_append, String.length_append, h1] at hlen
  omega

theorem string_of_length_zero {p : String} (h : p.length = 0) : p = "" := by
  have hd : p.data.length = 0 := by rw [String.length_data]; exact h
  have hnil : p.data = [] := List.length_eq_zero.mp hd
  exact String.toList_inj.mp (by simpa [String.toList] using hnil)

theorem join_semicolon_ne_empty (p : String) (ps : List String) (hp : p ≠ "") :
    join_semicolon (p :: ps) ≠ "" := by
  intro h
  have h' : ps.foldl (fun acc q => acc ++ ";" ++ q) p = "" := h
  have h1 := foldl_semicolon_length ps p
  have hz : String.length "" = 0 := rfl
  rw [h', hz] at h1
  exact hp (string_of_length_zero (Nat.le_zero.mp h1))

theorem matrix_params_ne_empty (kv : String × String) (rest : List (String × String)) :
    matrix_params (kv :: rest) ≠ "" := by
  rw [show matrix_params (kv :: rest) =
      join_semicolon ((kv.1 ++ "=" ++ kv.2) :: rest.map (fun kv => kv.1 ++ "=" ++ kv.2))
    from rfl]
  exact join_semicolon_ne_empty _ _ (pair_param_ne_empty kv.1 kv.2)

/-- Claim C5: a `HTTPBasicAuthConnector.upload` succeeds (returning the
target URL) iff the PUT status is exactly 201; any other status raises
`RetryableFailure` whose message carries the status code and the attempted
URL. -/
theorem http_upload_status_201 (c : HTTPBasicAuthConnector) (upload_name : String)
    (properties : List (String × String)) (put_status : String → Nat) :
    ((http_upload c upload_name properties put_status).1 =
        Except.ok (http_upload_url c upload_name properties) ↔
      put_status (http_upload_url c upload_name properties) = 201) ∧
    (put_status (http_upload_url c upload_name properties) ≠ 201 →
      (http_upload c upload_name properties put_status).1 =
        Except.error (Err.retryable ("Failed (status: " ++
          toString (put_status (http_upload_url c upload_name properties)) ++
          ") to upload " ++ http_upload_url c upload_name properties))) := by
  by_cases h : put_status (http_upload_url c upload_name properties) = 201 <;>
    simp [http_upload, h]

theorem http_upload_status_201_witness :
    (http_upload ⟨"https://host/repo", "u", "p"⟩ "a.tar" [] (fun _ => 500)).1 =
      Except.error (Err.retryable "Failed (status: 500) to upload https://host/repo/a.tar") := by
  have h := (http_upload_status_201 ⟨"https://host/repo", "u", "p"⟩ "a.tar" []
    (fun _ => 500)).2 (by decide)
  exact h.trans (by decide)

/-- Claim C8 (amended): provided the upload name does not begin with '/'
and the base URL is non-empty and does not end with '/' (so that
`os.path.join` inserts exactly one separator), the target URL is exactly
`baseURL/name` with no matrix-parameter suffix when `properties` is empty,
and `baseURL/name` followed by the ';'-delimited key=value pairs in the
caller's insertion order when non-empty. -/
theorem http_upload_url_matrix_params (c : HTTPBasicAuthConnector) (upload_name : String)
    (properties : List (String × String))
    (hb0 : c.base_url ≠ "") (hb1 : str_endswith c.base_url "/" = false)
    (hn : str_startswith upload_name "/" = false) :
    (properties = [] → http_upload_url c upload_name properties =
        c.base_url ++ "/" ++ upload_name) ∧
    (properties ≠ [] → http_upload_url c upload_name properties =
        c.base_url ++ "/" ++ upload_name ++ ";" ++ matrix_params properties) := by
  have hjoin : os_path_join c.base_url upload_name = c.base_url ++ "/" ++ upload_name := by
    simp [os_path_join, hn, hb0, hb1]
  constructor
  · intro hp
    subst hp
    simp [http_upload_url, matrix_params, join_semicolon, hjoin]
  · intro hp
    obtain ⟨kv, rest, rfl⟩ := List.exists_cons_of_ne_nil hp
    have hne := matrix_params_ne_empty kv rest
    simp only [http_upload_url, hjoin]
    rw [if_neg hne]

theorem http_upload_url_matrix_params_witness :
    http_upload_url ⟨"https://host/repo", "u", "p"⟩ "a.tar" [] = "https://host/repo/a.tar" ∧
      http_upload_url ⟨"https://host/repo", "u", "p"⟩ "a.tar"
          [("color", "red"), ("size", "big")] =
        "https://host/repo/a.tar;color=red;size=big" := by
  have h1 := http_upload_url_matrix_params ⟨"https://host/repo", "u", "p"⟩ "a.tar" []
    (by decide) (by decide) (by decide)
  have h2 := http_upload_url_matrix_params ⟨"https://host/repo", "u", "p"⟩ "a.tar"
    [("color", "red"), ("size", "big")] (by decide) (by decide) (by decide)
  exact ⟨(h1.1 rfl).trans (by decide), (h2.2 (by decide)).trans (by decide)⟩

/-- Claim C8, counterexample: with base URL "https://host/repo", upload
name "/a.tar" (beginning with '/') and empty properties, `os.path.join`
discards the base URL entirely: the target URL is "/a.tar", which is not
`baseURL/name` (and does not even contain the base URL). -/
theorem http_upload_url_absolute_name_drops_base :
    http_upload_url ⟨"https://host/repo", "u", "p"⟩ "/a.tar" [] = "/a.tar" ∧
      ("/a.tar" : String) ≠ "https://host/repo" ++ "/" ++ "/a.tar" := by
  decide

/-- Claim C2: a two-phase connector with a non-empty staging path whose
HEAD existence probe against the final location `baseURL/name` succeeds
issues no PUT request and raises the fatal, non-retryable
already-published error. -/
theorem http2_upload_already_published (c : HTTPBasicAuthConnector2Phase)
    (upload_name : String) (properties : List (String × String))
    (head_ok : String → Bool) (put_status : String → Nat)
    (htemp : c.temp_path ≠ "")
    (hhead : head_ok (os_path_join c.base_url upload_name) = true) :
    (http2_upload c upload_name properties head_ok put_status).1 =
        Except.error (Err.alreadyPublished
          ("Artifact " ++ os_path_join c.base_url upload_name ++ " already exists")) ∧
      (∀ r ∈ (http2_upload c upload_name properties head_ok put_status).2,
        r.isPut = false) ∧
      isRetryableFailure (Err.alreadyPublished
        ("Artifact " ++ os_path_join c.base_url upload_name ++ " already exists")) = false := by
  refine ⟨?_, ?_, rfl⟩ <;> simp [http2_upload, htemp, hhead, HttpReq.isPut]

theorem http2_upload_already_published_witness :
    (http2_upload ⟨"https://host/repo", "u", "p", "staging"⟩ "a.tar" [] (fun _ => true)
        (fun _ => 0)).1 =
      Except.error (Err.alreadyPublished "Artifact https://host/repo/a.tar already exists") := by
  have h := http2_upload_already_published ⟨"https://host/repo", "u", "p", "staging"⟩ "a.tar"
    [] (fun _ => true) (fun _ => 0) (by decide) (by decide)
  exact h.1.trans (by decide)

/-- Claim C9: `AWSRemote.upload_generic` ignores its `properties` argument
entirely: for any two calls agreeing on name and stream, the delegated S3
upload call and the returned URL are identical. -/
theorem aws_upload_generic_ignores_properties (gc : S3Connector) (name stream : String)
    (p1 p2 : List (String × String)) :
    aws_upload_generic gc name stream p1 = aws_upload_generic gc name stream p2 := rfl

/-- Claim C1 (amended): after `maxAttempts` consecutive retryable failures,
`remote_retry` raises a fatal (non-retryable) max-retries `Exception` whose
message names the wrapped operation and the attempt count; the raised error
does not wrap or reference the last observed failure. -/
theorem remote_retry_exhaustion (N : Nat) (funcName : String) (retry_on : Err → Bool)
    (func : Nat → Except Err α × List τ) (e : Nat → Err)
    (hfail : ∀ j, j < N → (func j).1 = Except.error (e j))
    (hret : ∀ j, j < N → retry_on (e j) = true) :
    (remote_retry_call N funcName retry_on func).1 =
        Except.error (Err.maxRetries (max_retries_msg funcName N)) ∧
      isRetryableFailure (Err.maxRetries (max_retries_msg funcName N)) = false := by
  have h := retry_go_all_fail funcName N retry_on func N 0 0 []
    (fun j hj => ⟨e j, (func j).2, by
        rw [Nat.zero_add]
        exact Prod.ext_iff.mpr ⟨hfail j hj, rfl⟩,
      hret j hj⟩)
  exact ⟨h.1, rfl⟩

theorem remote_retry_exhaustion_witness :
    (remote_retry_call 2 "op" default_retry_on
        (fun _ => ((Except.error (Err.retryable "x") : Except Err Nat), ([] : List Unit)))).1 =
        Except.error (Err.maxRetries (max_retries_msg "op" 2)) ∧
      isRetryableFailure (Err.maxRetries (max_retries_msg "op" 2)) = false :=
  remote_retry_exhaustion 2 "op" default_retry_on
    (fun _ => ((Except.error (Err.retryable "x") : Except Err Nat), ([] : List Unit)))
    (fun _ => Err.retryable "x") (by decide) (by decide)

/-- Claim C1, counterexample: two operations whose retryable failures carry
different payloads ("failure A" vs "failure B") lead `remote_retry` to
raise literally identical errors after exhausting its attempts, although
the last observed failures differ; the raised "max retries" error therefore
cannot wrap (or even depend on) the last observed failure. -/
theorem remote_retry_exhaustion_ignores_last_failure :
    (remote_retry_call 2 "op" default_retry_on
        (fun _ => ((Except.error (Err.retryable "failure A") : Except Err Nat),
          ([] : List Unit)))).1 =
      (remote_retry_call 2 "op" default_retry_on
        (fun _ => ((Except.error (Err.retryable "failure B") : Except Err Nat),
          ([] : List Unit)))).1 ∧
      (Err.retryable "failure A") ≠ (Err.retryable "failure B") := by
  decide

/-- Python `s.split(sep)` for a one-character separator: split on every
occurrence; the result always has one more part than there are
separators. -/
def py_split_aux (sep : Char) : List Char → List Char → List String
  | [], acc => [acc.reverse.asString]
  | c :: cs, acc =>
      if c = sep then acc.reverse.asString :: py_split_aux sep cs []
      else py_split_aux sep cs (c :: acc)

/-- Python `s.split(sep)` (one-character separator). -/
def py_split (sep : Char) (s : String) : List String := py_split_aux sep s.data []

/-- `local_name.split(':')` tuple-unpacked into a pair: Python raises
`ValueError` unless the split yields exactly two parts, i.e. unless
`local_name` contains exactly one ':'. -/
def parse_name_tag (s : String) : Except Err (String × String) :=
  match py_split ':' s with
  | [n, t] => Except.ok (n, t)
  | parts =>
      Except.error (Err.valueError
        (if parts.length < 2 then "not enough values to unpack (expected 2)"
          else "too many values to unpack (expected 2)"))

/-- Calls to the docker daemon recorded in `DockerConnector.upload`'s
trace: `dcli.api.tag`, `dcli.images.push` and `dcli.api.remove_image`. -/
inductive DockerCall where
  | tag (local_name : String) (path : String) (tag : String)
  | push (path : String) (tag : String)
  | removeImage (url : String)
  deriving DecidableEq, Repr

structure DockerConnector where
  registry_list : List String
  username : String
  password : String
  deriving DecidableEq, Repr

/-- Modelled from the spec: `windlass.images.check_docker_stream` (module
not under `src/`): each record of the streamed push response is inspected
for an embedded error field; the first such error aborts the call with a
transient remote failure carrying the message. A push-response record is
modelled by its optional error field. -/
def check_docker_stream (records : List (Option String)) : Except Err Unit :=
  match records.filterMap id with
  | [] => Except.ok ()
  | e :: _ => Except.error (Err.retryable e)

/-- The body of `DockerConnector.upload` (the function wrapped by
`@remote_retry()`): parse `local_name` as name:tag, default the upload
name and tag from the parsed values, tag the local image under
`registry_list[0]/upload_name`, push with authentication while checking
the streamed response, and in a `finally` block remove the local
destination tag alias. `tag_err` is the oracle for a failure of the docker
`tag` call and `push_records` is the streamed push response. -/
def docker_upload_raw (c : DockerConnector) (local_name : String)
    (upload_name upload_tag : Option String)
    (tag_err : Option Err) (push_records : List (Option String)) :
    Except Err String × List DockerCall :=
  match parse_name_tag local_name with
  | Except.error e => (Except.error e, [])
  | Except.ok (local_image_name, local_image_tag) =>
      let un := upload_name.getD local_image_name
      let ut := upload_tag.getD local_image_tag
      match c.registry_list with
      | [] => (Except.error (Err.indexError "list index out of range"), [])
      | r0 :: _ =>
          let upload_path := r0 ++ "/" ++ un
          let upload_url := upload_path ++ ":" ++ ut
          match tag_err with
          | some e =>
              (Except.error e,
                [DockerCall.tag local_name upload_path ut, DockerCall.removeImage upload_url])
          | none =>
              match check_docker_stream push_records with
              | Except.error e =>
                  (Except.error e,
                    [DockerCall.tag local_name upload_path ut, DockerCall.push upload_path ut,
                      DockerCall.removeImage upload_url])
              | Except.ok _ =>
                  (Except.ok upload_url,
                    [DockerCall.tag local_name upload_path ut, DockerCall.push upload_path ut,
                      DockerCall.removeImage upload_url])

/-- `DockerConnector.upload` as callers see it: the body wrapped by
`@remote_retry()` (default `max_retries=3`, default retryable set), with
the docker oracles indexed by attempt. -/
def docker_upload (c : DockerConnector) (local_name : String)
    (upload_name upload_tag : Option String)
    (tag_errs : Nat → Option Err) (push_recs : Nat → List (Option String)) :
    Except Err String × Nat × List DockerCall :=
  remote_retry_call default_max_retries "retry_f" default_retry_on
    (fun i => docker_upload_raw c local_name upload_name upload_tag (tag_errs i) (push_recs i))

/-- Calls to the ECR client recorded in a trace: `create_repository` and
`set_repository_policy`. -/
inductive EcrCall where
  | createRepository (name : String)
  | setRepositoryPolicy (name : String) (policy : String)
  deriving DecidableEq, Repr

/-- An `ECRConnector` after `__init__`: `path_prefixes` (normalised to a
list), the optional `new_repo_policy` document, the `existing_repos`
catalog filled by the paginated listing, and the base `DockerConnector`
state obtained from the docker login. -/
structure ECRConnector where
  path_prefixes : List String
  new_repo_policy : Option String
  existing_repos : List String
  registry_list : List String
  username : String
  password : String
  deriving DecidableEq, Repr

/-- `ECRConnector._set_repo_policy`: apply the configured policy document
to the repository, if one was configured; `policy_err` is the oracle for a
failure of the `set_repository_policy` call. -/
def set_repo_policy (policy : Option String) (repository_name : String)
    (policy_err : Option Err) : Except Err Unit × List EcrCall :=
  match policy with
  | none => (Except.ok (), [])
  | some policy_text =>
      ((match policy_err with
        | some e => Except.error e
        | none => Except.ok ()),
        [EcrCall.setRepositoryPolicy repository_name policy_text])

/-- One attempt of the embedded `_create_repo`: call `create_repository`,
catching only `RepositoryAlreadyExistsException` (logged and treated as
success), then apply the repository policy. `create_err` is the oracle for
the exception the `create_repository` call raises, if any. -/
def create_repo_once (policy : Option String) (image_name : String)
    (create_err : Option Err) (policy_err : Option Err) :
    Except Err Unit × List EcrCall :=
  match create_err with
  | none =>
      let p := set_repo_policy policy image_name policy_err
      (p.1, EcrCall.createRepository image_name :: p.2)
  | some (Err.repoAlreadyExists _) =>
      let p := set_repo_policy policy image_name policy_err
      (p.1, EcrCall.createRepository image_name :: p.2)
  | some e => (Except.error e, [EcrCall.createRepository image_name])

/-- The retryable set of the `remote_retry` wrapping `_create_repo`: the
base `RetryableFailure` plus `RepositoryNotFoundException`. -/
def ecr_create_retry_on : Err → Bool :=
  mk_retry_on fun e =>
    match e with
    | Err.repoNotFound _ => true
    | _ => false

/-- `ECRConnector._create_repo_if_new`: skip entirely when the name is
already in `existing_repos`; otherwise run `_create_repo` under the
extended retry wrapper and, on success, add the name to the catalog.
Returns the result, the number of backoff sleeps, the trace of ECR calls
and the updated catalog. -/
def create_repo_if_new (repos : List String) (policy : Option String) (image_name : String)
    (create_errs policy_errs : Nat → Option Err) :
    Except Err Unit × Nat × List EcrCall × List String :=
  if image_name ∈ repos then (Except.ok (), 0, [], repos)
  else
    let r := remote_retry_call default_max_retries "_create_repo" ecr_create_retry_on
      (fun i => create_repo_once policy image_name (create_errs i) (policy_errs i))
    match r.1 with
    | Except.ok _ => (Except.ok (), r.2.1, r.2.2, repos ++ [image_name])
    | Except.error e => (Except.error e, r.2.1, r.2.2, repos)

/-- `ECRConnector.upload`: parse name:tag, default the upload name from
the parsed value, build the destination repository name
`path_prefixes[0] + upload_name`, ensure that repository exists, then
delegate to the retry-wrapped base docker push with that name. Returns the
result, the ECR call trace, the docker call trace and the updated
repository catalog. -/
def ecr_upload (c : ECRConnector) (local_name : String)
    (upload_name upload_tag : Option String)
    (create_errs policy_errs : Nat → Option Err)
    (tag_errs : Nat → Option Err) (push_recs : Nat → List (Option String)) :
    Except Err String × List EcrCall × List DockerCall × List String :=
  match parse_name_tag local_name with
  | Except.error e => (Except.error e, [], [], c.existing_repos)
  | Except.ok (local_image_name, _) =>
      let un := upload_name.getD local_image_name
      match c.path_prefixes with
      | [] => (Except.error (Err.indexError "list index out of range"), [], [],
          c.existing_repos)
      | p0 :: _ =>
          let upload_path := p0 ++ un
          let cr := create_repo_if_new c.existing_repos c.new_repo_policy upload_path
            create_errs policy_errs
          match cr.1 with
          | Except.error e => (Except.error e, cr.2.2.1, [], cr.2.2.2)
          | Except.ok _ =>
              let d := docker_upload ⟨c.registry_list, c.username, c.password⟩ local_name
                (some upload_path) upload_tag tag_errs push_recs
              (d.1, cr.2.2.1, d.2.2, cr.2.2.2)

theorem parse_name_tag_fail (s : String) (h : (py_split ':' s).length ≠ 2) :
    ∃ msg, parse_name_tag s = Except.error (Err.valueError msg) := by
  unfold parse_name_tag
  rcases hs : py_split ':' s with _ | ⟨a, _ | ⟨b, _ | ⟨c', rest⟩⟩⟩
  · exact ⟨_, rfl⟩
  · exact ⟨_, rfl⟩
  · rw [hs] at h; simp at h
  · exact ⟨_, rfl⟩

/-- Claim C6: a `DockerConnector.upload` body that reaches the
tag-and-push phase (the name:tag parse succeeded and a first registry
exists) removes the local destination tag alias
`registry_list[0]/upload_name:upload_tag` on every exit path: whatever the
outcomes of the tag call and of the streamed push, the emitted trace
contains the `remove_image` call on that alias. -/
theorem docker_upload_always_removes_alias (c : DockerConnector) (local_name ln lt : String)
    (upload_name upload_tag : Option String) (r0 : String) (rs : List String)
    (tag_err : Option Err) (push_records : List (Option String))
    (hsplit : py_split ':' local_name = [ln, lt]) (hreg : c.registry_list = r0 :: rs) :
    DockerCall.removeImage (r0 ++ "/" ++ upload_name.getD ln ++ ":" ++ upload_tag.getD lt) ∈
      (docker_upload_raw c local_name upload_name upload_tag tag_err push_records).2 := by
  unfold docker_upload_raw parse_name_tag
  rw [hsplit, hreg]
  cases tag_err with
  | some e => simp
  | none => cases h : check_docker_stream push_records <;> simp [h]

theorem docker_upload_always_removes_alias_witness :
    DockerCall.removeImage "reg.example.com/myimg:1.0" ∈
      (docker_upload_raw ⟨["reg.example.com"], "u", "p"⟩ "myimg:1.0" none none
        (some (Err.other "tag failed")) []).2 := by
  have h := docker_upload_always_removes_alias ⟨["reg.example.com"], "u", "p"⟩ "myimg:1.0"
    "myimg" "1.0" none none "reg.example.com" [] (some (Err.other "tag failed")) []
    (by decide) rfl
  exact h

/-- Claim C10: `DockerConnector.upload` and `ECRConnector.upload` have the
unstated precondition that `local_name` contains exactly one ':': when the
split does not yield exactly two parts, the call raises a `ValueError`
from the name:tag parse before any tag, push, repository-create or cleanup
call (all traces are empty), and the retry wrapper propagates that error
immediately with zero sleeps (it is not retried). -/
theorem upload_requires_single_colon (c : DockerConnector) (ec : ECRConnector)
    (local_name : String) (upload_name upload_tag : Option String)
    (create_errs policy_errs tag_errs : Nat → Option Err)
    (push_recs : Nat → List (Option String))
    (h : (py_split ':' local_name).length ≠ 2) :
    ∃ msg,
      docker_upload_raw c local_name upload_name upload_tag (tag_errs 0) (push_recs 0) =
          (Except.error (Err.valueError msg), []) ∧
        docker_upload c local_name upload_name upload_tag tag_errs push_recs =
          (Except.error (Err.valueError msg), 0, []) ∧
        ecr_upload ec local_name upload_name upload_tag create_errs policy_errs tag_errs
            push_recs =
          (Except.error (Err.valueError msg), [], [], ec.existing_repos) := by
  obtain ⟨msg, hp⟩ := parse_name_tag_fail local_name h
  have h0 : docker_upload_raw c local_name upload_name upload_tag (tag_errs 0)
      (push_recs 0) = (Except.error (Err.valueError msg), []) := by
    simp [docker_upload_raw, hp]
  refine ⟨msg, h0, ?_, ?_⟩
  · exact retry_stops_on_fatal default_max_retries "retry_f" default_retry_on _
      (Err.valueError msg) [] (by norm_num [default_max_retries]) h0 rfl
  · simp [ecr_upload, hp]

theorem upload_requires_single_colon_witness :
    ∃ msg,
      docker_upload_raw ⟨["reg.example.com"], "u", "p"⟩ "a:b:c" none none none [] =
          (Except.error (Err.valueError msg), []) ∧
        docker_upload ⟨["reg.example.com"], "u", "p"⟩ "a:b:c" none none
            (fun _ => none) (fun _ => []) =
          (Except.error (Err.valueError msg), 0, []) ∧
        ecr_upload ⟨[""], none, [], ["reg.example.com"], "u", "p"⟩ "a:b:c" none none
            (fun _ => none) (fun _ => none) (fun _ => none) (fun _ => []) =
          (Except.error (Err.valueError msg), [], [],
            (⟨[""], none, [], ["reg.example.com"], "u", "p"⟩ : ECRConnector).existing_repos) :=
  upload_requires_single_colon ⟨["reg.example.com"], "u", "p"⟩
    ⟨[""], none, [], ["reg.example.com"], "u", "p"⟩ "a:b:c" none none
    (fun _ => none) (fun _ => none) (fun _ => none) (fun _ => []) (by decide)

theorem create_repo_if_new_skips_known (repos : List String) (pol : Option String)
    (dest : String) (ce pe : Nat → Option Err) (hmem : dest ∈ repos) :
    create_repo_if_new repos pol dest ce pe = (Except.ok (), 0, [], repos) := by
  simp [create_repo_if_new, hmem]

theorem create_repo_if_new_creates (repos : List String) (pol : Option String)
    (dest : String) (ce pe : Nat → Option Err) (hnot : dest ∉ repos) :
    EcrCall.createRepository dest ∈ (create_repo_if_new repos pol dest ce pe).2.2.1 := by
  have hx : EcrCall.createRepository dest ∈ (create_repo_once pol dest (ce 0) (pe 0)).2 := by
    cases hce : ce 0 with
    | none => simp [create_repo_once]
    | some e => cases e <;> simp [create_repo_once]
  have h := retry_call_trace_head default_max_retries "_create_repo" ecr_create_retry_on
    (fun i => create_repo_once pol dest (ce i) (pe i))
    (by norm_num [default_max_retries]) _ hx
  simp only [create_repo_if_new, if_neg hnot]
  cases hr : (remote_retry_call default_max_retries "_create_repo" ecr_create_retry_on
      (fun i => create_repo_once pol dest (ce i) (pe i))).1 <;>
    simp [hr] <;> exact h

theorem create_repo_if_new_already_exists (repos : List String) (pol : Option String)
    (dest : String) (ce pe : Nat → Option Err) (ptext m : String)
    (hnot : dest ∉ repos) (hce : ce 0 = some (Err.repoAlreadyExists m))
    (hpe : pe 0 = none) (hpol : pol = some ptext) :
    create_repo_if_new repos pol dest ce pe =
      (Except.ok (), 0,
        [EcrCall.createRepository dest, EcrCall.setRepositoryPolicy dest ptext],
        repos ++ [dest]) := by
  have h1 : create_repo_once pol dest (ce 0) (pe 0) =
      (Except.ok (),
        [EcrCall.createRepository dest, EcrCall.setRepositoryPolicy dest ptext]) := by
    rw [hce, hpe, hpol]; rfl
  have h2 := retry_first_ok default_max_retries "_create_repo" ecr_create_retry_on
    (fun i => create_repo_once pol dest (ce i) (pe i)) ()
    [EcrCall.createRepository dest, EcrCall.setRepositoryPolicy dest ptext]
    (by norm_num [default_max_retries]) h1
  simp [create_repo_if_new, if_neg hnot, h2]

/-- Claim C4: in `ECRConnector.upload`, when the destination repository
name `path_prefixes[0] + upload_name` is already present in
`existing_repos` (in particular any name present at construction time) no
`create_repository` call is ever issued; when it is absent, creation is
attempted, a concurrent `RepositoryAlreadyExistsException` is treated as
success, and the configured access-policy document is then applied (the
name also entering the catalog). -/
theorem ecr_upload_create_repo_policy (ec : ECRConnector) (local_name ln lt : String)
    (upload_name upload_tag : Option String) (p0 : String) (ps : List String)
    (ptext m : String) (create_errs policy_errs tag_errs : Nat → Option Err)
    (push_recs : Nat → List (Option String))
    (hsplit : py_split ':' local_name = [ln, lt])
    (hpre : ec.path_prefixes = p0 :: ps) :
    ((p0 ++ upload_name.getD ln) ∈ ec.existing_repos →
      (ecr_upload ec local_name upload_name upload_tag create_errs policy_errs tag_errs
        push_recs).2.1 = []) ∧
    ((p0 ++ upload_name.getD ln) ∉ ec.existing_repos →
      EcrCall.createRepository (p0 ++ upload_name.getD ln) ∈
        (ecr_upload ec local_name upload_name upload_tag create_errs policy_errs tag_errs
          push_recs).2.1) ∧
    ((p0 ++ upload_name.getD ln) ∉ ec.existing_repos →
      create_errs 0 = some (Err.repoAlreadyExists m) →
      policy_errs 0 = none →
      ec.new_repo_policy = some ptext →
      EcrCall.setRepositoryPolicy (p0 ++ upload_name.getD ln) ptext ∈
          (ecr_upload ec local_name upload_name upload_tag create_errs policy_errs tag_errs
            push_recs).2.1 ∧
        (p0 ++ upload_name.getD ln) ∈
          (ecr_upload ec local_name upload_name upload_tag create_errs policy_errs tag_errs
            push_recs).2.2.2) := by
  have hred : ecr_upload ec local_name upload_name upload_tag create_errs policy_errs
      tag_errs push_recs =
      (match (create_repo_if_new ec.existing_repos ec.new_repo_policy
          (p0 ++ upload_name.getD ln) create_errs policy_errs).1 with
        | Except.error e =>
            (Except.error e,
              (create_repo_if_new ec.existing_repos ec.new_repo_policy
                (p0 ++ upload_name.getD ln) create_errs policy_errs).2.2.1,
              [],
              (create_repo_if_new ec.existing_repos ec.new_repo_policy
                (p0 ++ upload_name.getD ln) create_errs policy_errs).2.2.2)
        | Except.ok _ =>
            ((docker_upload ⟨ec.registry_list, ec.username, ec.password⟩ local_name
                (some (p0 ++ upload_name.getD ln)) upload_tag tag_errs push_recs).1,
              (create_repo_if_new ec.existing_repos ec.new_repo_policy
                (p0 ++ upload_name.getD ln) create_errs policy_errs).2.2.1,
              (docker_upload ⟨ec.registry_list, ec.username, ec.password⟩ local_name
                (some (p0 ++ upload_name.getD ln)) upload_tag tag_errs push_recs).2.2,
              (create_repo_if_new ec.existing_repos ec.new_repo_policy
                (p0 ++ upload_name.getD ln) create_errs policy_errs).2.2.2)) := by
    unfold ecr_upload parse_name_tag
    rw [hsplit, hpre]
  refine ⟨?_, ?_, ?_⟩
  · intro hmem
    rw [hred, create_repo_if_new_skips_known ec.existing_repos ec.new_repo_policy
      (p0 ++ upload_name.getD ln) create_errs policy_errs hmem]
  · intro hnot
    have h := create_repo_if_new_creates ec.existing_repos ec.new_repo_policy
      (p0 ++ upload_name.getD ln) create_errs policy_errs hnot
    rw [hred]
    cases hr : (create_repo_if_new ec.existing_repos ec.new_repo_policy
        (p0 ++ upload_name.getD ln) create_errs policy_errs).1 <;>
      simpa using h
  · intro hnot hce hpe hpol
    rw [hred, create_repo_if_new_already_exists ec.existing_repos ec.new_repo_policy
      (p0 ++ upload_name.getD ln) create_errs policy_errs ptext m hnot hce hpe hpol]
    simp

theorem ecr_upload_create_repo_policy_witness :
    (ecr_upload ⟨["pre-"], some "POLICY", ["pre-foo"], ["reg"], "u", "p"⟩ "foo:1" none none
        (fun _ => none) (fun _ => none) (fun _ => none) (fun _ => [])).2.1 = [] := by
  have h := ecr_upload_create_repo_policy
    ⟨["pre-"], some "POLICY", ["pre-foo"], ["reg"], "u", "p"⟩ "foo:1" "foo" "1" none none
    "pre-" [] "POLICY" "m" (fun _ => none) (fun _ => none) (fun _ => none) (fun _ => [])
    (by decide) rfl
  exact h.1 (by decide)

end Windlass
